import Mathlib

/-!
Shallow embedding of the solmentor program
(src/programs/solmentor/src/lib.rs) and proofs about its reward,
level, streak and achievement logic.

Modelling conventions:
* `u64` fields are `Nat` values; additions that the program performs on
  them go through `checkedAddU64`, which fails with an overflow error
  when the mathematical sum reaches `2^64` (see its doc comment).
* `i64` timestamps are `Int`.  `Clock::get()?.unix_timestamp` is constant
  within a single transaction, so each instruction takes one `now : Int`.
* `Pubkey` is an opaque `Nat`.
* Each Anchor instruction becomes a function from the pre-state of the
  accounts it mutates to an `Except TxError` of their post-state; the
  transaction is atomic, so an `error` result means no account changed.
-/

/-- The `u8` values `score` and `total_questions` are modelled as `Nat`;
`U8_BOUND` expresses the `u8` range where a theorem needs it. -/
def U8_BOUND : Nat := 256

/-- One more than the largest `u64` value. -/
def U64_MOD : Nat := 18446744073709551616

/-- Outcomes of a failed instruction.  `invalidScore` embeds
`ErrorCode::InvalidScore`; `overflow` is the arithmetic-overflow abort. -/
inductive TxError where
  | invalidScore
  | overflow
deriving Repr, DecidableEq

/-- Modelled from the spec: the workspace build profile that fixes the
behaviour of Rust `+=` on `u64` is not part of `src/`; §7 of the spec
requires that "the core must treat counter increments as fallible and
propagate an overflow failure rather than wrapping", so every `+=` the
program performs on a `u64` counter is embedded as this checked addition,
which aborts the transaction when the sum would exceed `u64::MAX`. -/
def checkedAddU64 (a b : Nat) : Except TxError Nat :=
  if a + b < U64_MOD then .ok (a + b) else .error .overflow

/-- The `UserProfile` account. -/
structure UserProfile where
  authority : Nat
  username : String
  xp : Nat
  level : Nat
  streak : Nat
  quizzes_completed : Nat
  achievements_earned : Nat
  created_at : Int
  last_active : Int
deriving Repr, DecidableEq

/-- The `QuizResult` account. -/
structure QuizResult where
  user : Nat
  quiz_id : String
  score : Nat
  total_questions : Nat
  xp_earned : Nat
  completed_at : Int
deriving Repr, DecidableEq

/-- The `AchievementTier` enum. -/
inductive AchievementTier where
  | Bronze
  | Silver
  | Gold
  | Platinum
deriving Repr, DecidableEq

/-- The `Achievement` account. -/
structure Achievement where
  user : Nat
  achievement_id : String
  achievement_name : String
  tier : AchievementTier
  awarded_at : Int
deriving Repr, DecidableEq

/-- Embeds `initialize_profile`: creates the profile record.  The two
`Clock::get()` calls in the source see the same sysvar value inside one
transaction, hence the single `now`. -/
def initProfile (authority : Nat) (username : String) (now : Int) :
    UserProfile :=
  { authority := authority
    username := username
    xp := 0
    level := 1
    streak := 0
    quizzes_completed := 0
    achievements_earned := 0
    created_at := now
    last_active := now }

/-- `xp_earned` as computed in `submit_quiz` (line 42 of the source):
base 10 XP per correct answer plus a flat 50 bonus for a perfect score. -/
def xpEarned (score total_questions : Nat) : Nat :=
  score * 10 + (if score = total_questions then 50 else 0)

/-- Embeds `submit_quiz`.  Mirrors the source order exactly:
`require!(score <= total_questions)`, then `xp += xp_earned`,
`quizzes_completed += 1`, `last_active = now`, `level = xp/100 + 1`,
then the streak branch comparing `now` against the `last_active` field
*after* it was overwritten, and finally the `QuizResult` record. -/
def submitQuiz (p : UserProfile) (quiz_id : String)
    (score total_questions : Nat) (now : Int) :
    Except TxError (UserProfile × QuizResult) :=
  if score ≤ total_questions then
    match checkedAddU64 p.xp (xpEarned score total_questions) with
    | .error e => .error e
    | .ok newXp =>
      match checkedAddU64 p.quizzes_completed 1 with
      | .error e => .error e
      | .ok newQc =>
        let p1 : UserProfile :=
          { p with xp := newXp, quizzes_completed := newQc,
                   last_active := now }
        let p2 : UserProfile := { p1 with level := p1.xp / 100 + 1 }
        let time_since_last_active : Int := now - p2.last_active
        match (if time_since_last_active ≤ 86400 then
                 (checkedAddU64 p2.streak 1).map
                   (fun ns => { p2 with streak := ns })
               else .ok { p2 with streak := 1 }) with
        | .error e => .error e
        | .ok p3 =>
          .ok (p3,
            { user := p3.authority
              quiz_id := quiz_id
              score := score
              total_questions := total_questions
              xp_earned := xpEarned score total_questions
              completed_at := now })
  else .error .invalidScore

/-- The tier → bonus XP `match` in `award_achievement`. -/
def tierBonus : AchievementTier → Nat
  | .Bronze => 50
  | .Silver => 100
  | .Gold => 200
  | .Platinum => 500

/-- Embeds `award_achievement`: writes the `Achievement` record,
increments `achievements_earned`, then credits the tier bonus XP.
`level`, `streak` and `last_active` are not touched by the source. -/
def awardAchievement (p : UserProfile)
    (achievement_id achievement_name : String)
    (tier : AchievementTier) (now : Int) :
    Except TxError (UserProfile × Achievement) :=
  let ach : Achievement :=
    { user := p.authority
      achievement_id := achievement_id
      achievement_name := achievement_name
      tier := tier
      awarded_at := now }
  match checkedAddU64 p.achievements_earned 1 with
  | .error e => .error e
  | .ok newAe =>
    match checkedAddU64 p.xp (tierBonus ach.tier) with
    | .error e => .error e
    | .ok newXp =>
      .ok ({ p with achievements_earned := newAe, xp := newXp }, ach)

/-- Embeds `update_streak`: compares `now` against the pre-call
`last_active`, increments or resets the streak, then sets
`last_active = now`. -/
def updateStreak (p : UserProfile) (now : Int) :
    Except TxError UserProfile :=
  let time_since_last_active : Int := now - p.last_active
  match (if time_since_last_active ≤ 86400 then
           (checkedAddU64 p.streak 1).map (fun ns => { p with streak := ns })
         else .ok { p with streak := 1 }) with
  | .error e => .error e
  | .ok p1 => .ok { p1 with last_active := now }

/-- Modelled from the spec: the ledger host's atomic commit is
implemented by the Solana/Anchor runtime, which is not under `src/`;
§5 and §7 of the spec require that each call is all-or-nothing – "any
failure, domain or host-level, leaves all touched records unchanged".
This applies `submit_quiz` as one transaction over the profile and the
quiz-result store (`none` while the record does not exist): on success
the returned accounts are committed, on any failure every account keeps
its pre-call value and no record is created. -/
def submitQuizTx (p : UserProfile) (stored_qr : Option QuizResult)
    (quiz_id : String) (score total_questions : Nat) (now : Int) :
    (UserProfile × Option QuizResult) × Option TxError :=
  match submitQuiz p quiz_id score total_questions now with
  | .ok (post, qr) => ((post, some qr), none)
  | .error e => ((p, stored_qr), some e)

/-! ## Basic lemmas about the checked addition -/

theorem checkedAddU64_ok_iff {a b c : Nat} :
    checkedAddU64 a b = .ok c ↔ a + b < U64_MOD ∧ c = a + b := by
  unfold checkedAddU64
  split <;> simp_all [eq_comm]

theorem checkedAddU64_error_iff {a b : Nat} {e : TxError} :
    checkedAddU64 a b = .error e ↔ U64_MOD ≤ a + b ∧ e = .overflow := by
  unfold checkedAddU64
  split <;> simp_all [Nat.not_lt, eq_comm]

theorem checkedAddU64_ok_of {a b : Nat} (h : a + b < U64_MOD) :
    checkedAddU64 a b = .ok (a + b) := by
  unfold checkedAddU64
  rw [if_pos h]

theorem checkedAddU64_error_of {a b : Nat} (h : U64_MOD ≤ a + b) :
    checkedAddU64 a b = .error .overflow := by
  unfold checkedAddU64
  rw [if_neg (Nat.not_lt.2 h)]

/-! ## Inversion lemmas: what a successful instruction implies -/

theorem submitQuiz_ok_inv {p post : UserProfile} {qr : QuizResult}
    {quiz_id : String} {score total_questions : Nat} {now : Int}
    (h : submitQuiz p quiz_id score total_questions now = .ok (post, qr)) :
    score ≤ total_questions ∧
    p.xp + xpEarned score total_questions < U64_MOD ∧
    p.quizzes_completed + 1 < U64_MOD ∧
    p.streak + 1 < U64_MOD ∧
    post = { p with
      xp := p.xp + xpEarned score total_questions
      level := (p.xp + xpEarned score total_questions) / 100 + 1
      streak := p.streak + 1
      quizzes_completed := p.quizzes_completed + 1
      last_active := now } ∧
    qr = { user := p.authority, quiz_id := quiz_id, score := score,
           total_questions := total_questions,
           xp_earned := xpEarned score total_questions,
           completed_at := now } := by
  unfold submitQuiz at h
  split at h
  case isTrue hst =>
    split at h
    case h_1 e heq => cases h
    case h_2 newXp heq1 =>
      split at h
      case h_1 e heq => cases h
      case h_2 newQc heq2 =>
        dsimp only at h
        rw [sub_self] at h
        rw [if_pos (by norm_num : (0:Int) ≤ 86400)] at h
        rcases hs : checkedAddU64 p.streak 1 with e | ns
        · rw [hs] at h; simp only [Except.map] at h; cases h
        · rw [hs] at h; simp only [Except.map] at h
          rw [checkedAddU64_ok_iff] at heq1 heq2 hs
          obtain ⟨hb1, he1⟩ := heq1
          obtain ⟨hb2, he2⟩ := heq2
          obtain ⟨hb3, he3⟩ := hs
          cases h
          subst he1 he2 he3
          refine ⟨hst, hb1, hb2, hb3, rfl, rfl⟩
  case isFalse hst => cases h

theorem awardAchievement_ok_inv {p post : UserProfile} {ach : Achievement}
    {achievement_id achievement_name : String} {tier : AchievementTier}
    {now : Int}
    (h : awardAchievement p achievement_id achievement_name tier now =
      .ok (post, ach)) :
    p.achievements_earned + 1 < U64_MOD ∧
    p.xp + tierBonus tier < U64_MOD ∧
    post = { p with
      achievements_earned := p.achievements_earned + 1
      xp := p.xp + tierBonus tier } ∧
    ach = { user := p.authority, achievement_id := achievement_id,
            achievement_name := achievement_name, tier := tier,
            awarded_at := now } := by
  unfold awardAchievement at h
  dsimp only at h
  split at h
  case h_1 e heq => cases h
  case h_2 newAe heq1 =>
    split at h
    case h_1 e heq => cases h
    case h_2 newXp heq2 =>
      rw [checkedAddU64_ok_iff] at heq1 heq2
      obtain ⟨hb1, he1⟩ := heq1
      obtain ⟨hb2, he2⟩ := heq2
      cases h
      subst he1 he2
      exact ⟨hb1, hb2, rfl, rfl⟩

theorem updateStreak_ok_inv {p post : UserProfile} {now : Int}
    (h : updateStreak p now = .ok post) :
    (now - p.last_active ≤ 86400 ∧ p.streak + 1 < U64_MOD ∧
       post = { p with streak := p.streak + 1, last_active := now }) ∨
    (86400 < now - p.last_active ∧
       post = { p with streak := 1, last_active := now }) := by
  unfold updateStreak at h
  dsimp only at h
  split at h
  case h_1 e heq => cases h
  case h_2 p1 heq =>
    cases h
    split at heq
    case isTrue hc =>
      rcases hs : checkedAddU64 p.streak 1 with e | ns
      · rw [hs] at heq; simp only [Except.map] at heq; cases heq
      · rw [hs] at heq; simp only [Except.map] at heq
        rw [checkedAddU64_ok_iff] at hs
        obtain ⟨hb, he⟩ := hs
        cases heq
        subst he
        exact Or.inl ⟨hc, hb, rfl⟩
    case isFalse hc =>
      cases heq
      exact Or.inr ⟨by omega, rfl⟩

/-! ## Claims -/

/-- C1: for every successful `submit_quiz` call (any call with
`score ≤ total_questions` that does not abort on overflow), the reward
recorded on the `QuizResult` is `score*10 + (50 if score = total else 0)`
and the profile's XP grows by exactly that amount. -/
theorem C1_submit_quiz_reward {p post : UserProfile} {qr : QuizResult}
    {quiz_id : String} {score total_questions : Nat} {now : Int}
    (h : submitQuiz p quiz_id score total_questions now = .ok (post, qr)) :
    qr.xp_earned =
      score * 10 + (if score = total_questions then 50 else 0) ∧
    post.xp =
      p.xp + (score * 10 + (if score = total_questions then 50 else 0)) := by
  obtain ⟨-, -, -, -, hpost, hqr⟩ := submitQuiz_ok_inv h
  subst hpost hqr
  exact ⟨rfl, rfl⟩

/-- Witness for C1: a fresh profile submitting quiz "q1" with score 8/10
earns 80 XP, taking the profile from 0 XP to 80 XP. -/
theorem C1_submit_quiz_reward_witness :
    submitQuiz (initProfile 1 "alice" 0) "q1" 8 10 5 =
      .ok ({ initProfile 1 "alice" 0 with
               xp := 80, streak := 1, quizzes_completed := 1,
               last_active := 5 },
           { user := 1, quiz_id := "q1", score := 8, total_questions := 10,
             xp_earned := 80, completed_at := 5 }) ∧
    (80 : Nat) = 8 * 10 + (if (8 : Nat) = 10 then 50 else 0) ∧
    (80 : Nat) =
      (initProfile 1 "alice" 0).xp +
        (8 * 10 + (if (8 : Nat) = 10 then 50 else 0)) := by
  have h : submitQuiz (initProfile 1 "alice" 0) "q1" 8 10 5 =
      .ok ({ initProfile 1 "alice" 0 with
               xp := 80, streak := 1, quizzes_completed := 1,
               last_active := 5 },
           { user := 1, quiz_id := "q1", score := 8, total_questions := 10,
             xp_earned := 80, completed_at := 5 }) := by rfl
  exact ⟨h, (C1_submit_quiz_reward h).1.symm ▸ (C1_submit_quiz_reward h).1,
         (C1_submit_quiz_reward h).2⟩

/-- C2: `submit_quiz` with `score > total_questions` fails with
`InvalidScore` (the `require!` fires before any field assignment), and
under the host's atomic-commit semantics (`submitQuizTx`) the whole
transaction leaves every field of the profile and the quiz-result store
exactly as they were: no record is created and no state is mutated on
the error path. -/
theorem C2_invalid_score_rejected {p : UserProfile}
    {stored_qr : Option QuizResult} {quiz_id : String}
    {score total_questions : Nat} {now : Int}
    (h : total_questions < score) :
    submitQuiz p quiz_id score total_questions now =
      .error .invalidScore ∧
    submitQuizTx p stored_qr quiz_id score total_questions now =
      ((p, stored_qr), some .invalidScore) := by
  have herr : submitQuiz p quiz_id score total_questions now =
      .error .invalidScore := by
    unfold submitQuiz
    rw [if_neg (Nat.not_le.2 h)]
  refine ⟨herr, ?_⟩
  unfold submitQuizTx
  rw [herr]

/-- Witness for C2: score 5 out of 3 questions is rejected, and the
transaction leaves the profile and the (absent) quiz record unchanged. -/
theorem C2_invalid_score_rejected_witness :
    (3 : Nat) < 5 ∧
    submitQuiz (initProfile 1 "alice" 0) "q1" 5 3 0 =
      .error .invalidScore ∧
    submitQuizTx (initProfile 1 "alice" 0) none "q1" 5 3 0 =
      ((initProfile 1 "alice" 0, none), some .invalidScore) :=
  ⟨by decide,
   (@C2_invalid_score_rejected (initProfile 1 "alice" 0) none "q1" 5 3 0
     (by decide)).1,
   (@C2_invalid_score_rejected (initProfile 1 "alice" 0) none "q1" 5 3 0
     (by decide)).2⟩

/-- C3: after every successful `submit_quiz` call the profile satisfies
`level = xp / 100 + 1` with floor division on the post-call XP. -/
theorem C3_level_derivation {p post : UserProfile} {qr : QuizResult}
    {quiz_id : String} {score total_questions : Nat} {now : Int}
    (h : submitQuiz p quiz_id score total_questions now = .ok (post, qr)) :
    post.level = post.xp / 100 + 1 := by
  obtain ⟨-, -, -, -, hpost, -⟩ := submitQuiz_ok_inv h
  subst hpost
  rfl

/-- Witness for C3: a perfect 10/10 yields 150 XP and level 150/100+1 = 2. -/
theorem C3_level_derivation_witness :
    submitQuiz (initProfile 1 "alice" 0) "q2" 10 10 5 =
      .ok ({ initProfile 1 "alice" 0 with
               xp := 150, level := 2, streak := 1, quizzes_completed := 1,
               last_active := 5 },
           { user := 1, quiz_id := "q2", score := 10, total_questions := 10,
             xp_earned := 150, completed_at := 5 }) ∧
    ({ initProfile 1 "alice" 0 with
         xp := 150, level := 2, streak := 1, quizzes_completed := 1,
         last_active := 5 } : UserProfile).level =
      ({ initProfile 1 "alice" 0 with
           xp := 150, level := 2, streak := 1, quizzes_completed := 1,
           last_active := 5 } : UserProfile).xp / 100 + 1 := by
  have h : submitQuiz (initProfile 1 "alice" 0) "q2" 10 10 5 =
      .ok ({ initProfile 1 "alice" 0 with
               xp := 150, level := 2, streak := 1, quizzes_completed := 1,
               last_active := 5 },
           { user := 1, quiz_id := "q2", score := 10, total_questions := 10,
             xp_earned := 150, completed_at := 5 }) := by rfl
  exact ⟨h, C3_level_derivation h⟩

/-- C4 counterexample: the claim "streak never decreases" fails on
`update_streak`: a profile with streak 5 whose last activity was 100000
seconds ago (gap > 86400) has its streak reset to 1, a strict decrease. -/
theorem C4_streak_decrease_counterexample :
    updateStreak { initProfile 1 "alice" 0 with streak := 5 } 100000 =
      .ok { initProfile 1 "alice" 0 with
            streak := 1, last_active := 100000 } ∧
    ¬ ({ initProfile 1 "alice" 0 with streak := 5 } : UserProfile).streak ≤
      ({ initProfile 1 "alice" 0 with
         streak := 1, last_active := 100000 } : UserProfile).streak := by
  exact ⟨by rfl, by decide⟩

/-- C4 (amended): in every successful `submit_quiz`, `award_achievement`
and `update_streak` call the counters `xp`, `quizzes_completed` and
`achievements_earned` never decrease, and `streak` never decreases except
that `update_streak` may reset it to 1 after a gap of more than 86400
seconds.  (`initialize_profile` creates the profile, so it has no
pre-call field values; the created counters are all zero, see C9.) -/
theorem C4_counters_monotone :
    (∀ (p post : UserProfile) (qr : QuizResult) (quiz_id : String)
       (score total_questions : Nat) (now : Int),
       submitQuiz p quiz_id score total_questions now = .ok (post, qr) →
       p.xp ≤ post.xp ∧ p.streak ≤ post.streak ∧
       p.quizzes_completed ≤ post.quizzes_completed ∧
       p.achievements_earned ≤ post.achievements_earned) ∧
    (∀ (p post : UserProfile) (ach : Achievement)
       (achievement_id achievement_name : String)
       (tier : AchievementTier) (now : Int),
       awardAchievement p achievement_id achievement_name tier now =
         .ok (post, ach) →
       p.xp ≤ post.xp ∧ p.streak ≤ post.streak ∧
       p.quizzes_completed ≤ post.quizzes_completed ∧
       p.achievements_earned ≤ post.achievements_earned) ∧
    (∀ (p post : UserProfile) (now : Int),
       updateStreak p now = .ok post →
       p.xp ≤ post.xp ∧
       p.quizzes_completed ≤ post.quizzes_completed ∧
       p.achievements_earned ≤ post.achievements_earned ∧
       (now - p.last_active ≤ 86400 → p.streak ≤ post.streak) ∧
       (86400 < now - p.last_active → post.streak = 1)) := by
  refine ⟨?_, ?_, ?_⟩
  · intro p post qr quiz_id score total_questions now h
    obtain ⟨-, -, -, -, hpost, -⟩ := submitQuiz_ok_inv h
    subst hpost
    refine ⟨Nat.le_add_right _ _, Nat.le_succ _, Nat.le_succ _, le_refl _⟩
  · intro p post ach achievement_id achievement_name tier now h
    obtain ⟨-, -, hpost, -⟩ := awardAchievement_ok_inv h
    subst hpost
    refine ⟨Nat.le_add_right _ _, le_refl _, le_refl _, Nat.le_succ _⟩
  · intro p post now h
    rcases updateStreak_ok_inv h with ⟨hc, -, hpost⟩ | ⟨hc, hpost⟩ <;>
      subst hpost
    · exact ⟨le_refl _, le_refl _, le_refl _, fun _ => Nat.le_succ _,
             fun hlt => absurd hc (by omega)⟩
    · exact ⟨le_refl _, le_refl _, le_refl _,
             fun hle => absurd hle (by omega), fun _ => rfl⟩

/-- Witness for C4: an `update_streak` call on a fresh profile within the
window keeps all four counters at least as large as before. -/
theorem C4_counters_monotone_witness :
    updateStreak (initProfile 1 "alice" 0) 100 =
      .ok { initProfile 1 "alice" 0 with streak := 1, last_active := 100 } ∧
    ((initProfile 1 "alice" 0).xp ≤
       ({ initProfile 1 "alice" 0 with
          streak := 1, last_active := 100 } : UserProfile).xp ∧
     (initProfile 1 "alice" 0).quizzes_completed ≤
       ({ initProfile 1 "alice" 0 with
          streak := 1, last_active := 100 } : UserProfile).quizzes_completed ∧
     (initProfile 1 "alice" 0).achievements_earned ≤
       ({ initProfile 1 "alice" 0 with
          streak := 1, last_active := 100 } : UserProfile).achievements_earned ∧
     ((100 : Int) - (initProfile 1 "alice" 0).last_active ≤ 86400 →
        (initProfile 1 "alice" 0).streak ≤
          ({ initProfile 1 "alice" 0 with
             streak := 1, last_active := 100 } : UserProfile).streak) ∧
     ((86400 : Int) < 100 - (initProfile 1 "alice" 0).last_active →
        ({ initProfile 1 "alice" 0 with
           streak := 1, last_active := 100 } : UserProfile).streak = 1)) ∧
    (initProfile 1 "alice" 0).streak ≤
      ({ initProfile 1 "alice" 0 with
         streak := 1, last_active := 100 } : UserProfile).streak := by
  have h : updateStreak (initProfile 1 "alice" 0) 100 =
      .ok { initProfile 1 "alice" 0 with
            streak := 1, last_active := 100 } := by rfl
  exact ⟨h, C4_counters_monotone.2.2 _ _ _ h,
         (C4_counters_monotone.2.2 _ _ _ h).2.2.2.1 (by decide)⟩

/-- C5: the claim says `submit_quiz` compares `now` against the
pre-update `last_active`.  The code overwrites `last_active` with `now`
*before* the comparison (lines 47 and 53 of the source), so the elapsed
time it computes is always 0 and the streak increments even after a
1000000-second gap, where the claimed behaviour would reset it to 1:
starting from streak 5 and `last_active = 0`, submitting at
`now = 1000000` yields streak 6. -/
theorem C5_streak_compares_overwritten_last_active :
    (86400 : Int) <
      (1000000 : Int) -
        ({ initProfile 1 "alice" 0 with streak := 5 } :
          UserProfile).last_active ∧
    submitQuiz { initProfile 1 "alice" 0 with streak := 5 }
        "q1" 1 2 1000000 =
      .ok ({ initProfile 1 "alice" 0 with
               xp := 10, streak := 6, quizzes_completed := 1,
               last_active := 1000000 },
           { user := 1, quiz_id := "q1", score := 1, total_questions := 2,
             xp_earned := 10, completed_at := 1000000 }) := by
  exact ⟨by decide, by rfl⟩

/-- C6: every successful `award_achievement` call adds exactly the tier
bonus (Bronze 50, Silver 100, Gold 200, Platinum 500) to `xp`, adds
exactly 1 to `achievements_earned`, and leaves `level`, `streak` and
`last_active` unchanged. -/
theorem C6_award_achievement_effects {p post : UserProfile}
    {ach : Achievement} {achievement_id achievement_name : String}
    {tier : AchievementTier} {now : Int}
    (h : awardAchievement p achievement_id achievement_name tier now =
      .ok (post, ach)) :
    post.xp = p.xp + tierBonus tier ∧
    post.achievements_earned = p.achievements_earned + 1 ∧
    post.level = p.level ∧
    post.streak = p.streak ∧
    post.last_active = p.last_active ∧
    tierBonus .Bronze = 50 ∧ tierBonus .Silver = 100 ∧
    tierBonus .Gold = 200 ∧ tierBonus .Platinum = 500 := by
  obtain ⟨-, -, hpost, -⟩ := awardAchievement_ok_inv h
  subst hpost
  exact ⟨rfl, rfl, rfl, rfl, rfl, rfl, rfl, rfl, rfl⟩

/-- Witness for C6: awarding a Gold achievement to a fresh profile adds
200 XP and one achievement, leaving level, streak, last_active alone. -/
theorem C6_award_achievement_effects_witness :
    awardAchievement (initProfile 1 "alice" 0) "first" "First!"
        .Gold 7 =
      .ok ({ initProfile 1 "alice" 0 with
               xp := 200, achievements_earned := 1 },
           { user := 1, achievement_id := "first",
             achievement_name := "First!", tier := .Gold,
             awarded_at := 7 }) ∧
    ({ initProfile 1 "alice" 0 with
         xp := 200, achievements_earned := 1 } : UserProfile).xp =
      (initProfile 1 "alice" 0).xp + tierBonus .Gold ∧
    ({ initProfile 1 "alice" 0 with
         xp := 200, achievements_earned := 1 } :
        UserProfile).achievements_earned =
      (initProfile 1 "alice" 0).achievements_earned + 1 ∧
    ({ initProfile 1 "alice" 0 with
         xp := 200, achievements_earned := 1 } : UserProfile).level =
      (initProfile 1 "alice" 0).level := by
  have h : awardAchievement (initProfile 1 "alice" 0) "first" "First!"
      .Gold 7 =
      .ok ({ initProfile 1 "alice" 0 with
               xp := 200, achievements_earned := 1 },
           { user := 1, achievement_id := "first",
             achievement_name := "First!", tier := .Gold,
             awarded_at := 7 }) := by rfl
  exact ⟨h, (C6_award_achievement_effects h).1,
         (C6_award_achievement_effects h).2.1,
         (C6_award_achievement_effects h).2.2.1⟩

/-- C7: `update_streak` computes `elapsed = now - last_active` from the
pre-call `last_active`, increments the streak when `elapsed ≤ 86400`,
resets it to 1 when `elapsed > 86400`, and then sets `last_active = now`;
consequently a second call within 86400 seconds of the first increments
again, and a second call after a gap of more than 86400 seconds resets
the streak to 1. -/
theorem C7_update_streak_rule {p post : UserProfile} {now : Int}
    (h : updateStreak p now = .ok post) :
    (now - p.last_active ≤ 86400 → post.streak = p.streak + 1) ∧
    (86400 < now - p.last_active → post.streak = 1) ∧
    post.last_active = now ∧
    (∀ (post2 : UserProfile) (now2 : Int),
       updateStreak post now2 = .ok post2 →
       (now2 - now ≤ 86400 → post2.streak = post.streak + 1) ∧
       (86400 < now2 - now → post2.streak = 1)) := by
  have step : ∀ (q q' : UserProfile) (t : Int), updateStreak q t = .ok q' →
      (t - q.last_active ≤ 86400 → q'.streak = q.streak + 1) ∧
      (86400 < t - q.last_active → q'.streak = 1) ∧
      q'.last_active = t := by
    intro q q' t hq
    rcases updateStreak_ok_inv hq with ⟨hc, -, hpost⟩ | ⟨hc, hpost⟩ <;>
      subst hpost
    · exact ⟨fun _ => rfl, fun hlt => absurd hc (by omega), rfl⟩
    · exact ⟨fun hle => absurd hc (by omega), fun _ => rfl, rfl⟩
  obtain ⟨h1, h2, h3⟩ := step p post now h
  refine ⟨h1, h2, h3, ?_⟩
  intro post2 now2 h'
  obtain ⟨h1', h2', -⟩ := step post post2 now2 h'
  rw [h3] at h1' h2'
  exact ⟨h1', h2'⟩

/-- Witness for C7: a first call at `now = 100` (gap 100 ≤ 86400)
increments the streak to 1; a second call at `now2 = 200000`
(gap 199900 > 86400) resets it to 1. -/
theorem C7_update_streak_rule_witness :
    updateStreak (initProfile 1 "alice" 0) 100 =
      .ok { initProfile 1 "alice" 0 with
            streak := 1, last_active := 100 } ∧
    ({ initProfile 1 "alice" 0 with
       streak := 1, last_active := 100 } : UserProfile).streak =
      (initProfile 1 "alice" 0).streak + 1 ∧
    updateStreak { initProfile 1 "alice" 0 with
                   streak := 1, last_active := 100 } 200000 =
      .ok { initProfile 1 "alice" 0 with
            streak := 1, last_active := 200000 } ∧
    ({ initProfile 1 "alice" 0 with
       streak := 1, last_active := 200000 } : UserProfile).streak = 1 := by
  have h : updateStreak (initProfile 1 "alice" 0) 100 =
      .ok { initProfile 1 "alice" 0 with
            streak := 1, last_active := 100 } := by rfl
  have h2 : updateStreak { initProfile 1 "alice" 0 with
                           streak := 1, last_active := 100 } 200000 =
      .ok { initProfile 1 "alice" 0 with
            streak := 1, last_active := 200000 } := by rfl
  refine ⟨h, (C7_update_streak_rule h).1 (by decide), h2,
         ((C7_update_streak_rule h).2.2.2 _ 200000 h2).2 (by decide)⟩

/-- C8: every `u64` counter increment the program performs (`xp` and
`quizzes_completed` and `streak` in `submit_quiz`, `achievements_earned`
and `xp` in `award_achievement`, `streak` in `update_streak`) aborts the
call with an overflow failure when the sum would exceed `u64::MAX`,
rather than wrapping modulo 2^64.  The increments are embedded through
`checkedAddU64`; see its doc comment for the spec-modelled overflow
behaviour. -/
theorem C8_increments_fallible :
    (∀ (p : UserProfile) (quiz_id : String)
       (score total_questions : Nat) (now : Int),
       score ≤ total_questions →
       U64_MOD ≤ p.xp + xpEarned score total_questions →
       submitQuiz p quiz_id score total_questions now =
         .error .overflow) ∧
    (∀ (p : UserProfile) (quiz_id : String)
       (score total_questions : Nat) (now : Int),
       score ≤ total_questions →
       p.xp + xpEarned score total_questions < U64_MOD →
       U64_MOD ≤ p.quizzes_completed + 1 →
       submitQuiz p quiz_id score total_questions now =
         .error .overflow) ∧
    (∀ (p : UserProfile) (quiz_id : String)
       (score total_questions : Nat) (now : Int),
       score ≤ total_questions →
       p.xp + xpEarned score total_questions < U64_MOD →
       p.quizzes_completed + 1 < U64_MOD →
       U64_MOD ≤ p.streak + 1 →
       submitQuiz p quiz_id score total_questions now =
         .error .overflow) ∧
    (∀ (p : UserProfile) (achievement_id achievement_name : String)
       (tier : AchievementTier) (now : Int),
       U64_MOD ≤ p.achievements_earned + 1 →
       awardAchievement p achievement_id achievement_name tier now =
         .error .overflow) ∧
    (∀ (p : UserProfile) (achievement_id achievement_name : String)
       (tier : AchievementTier) (now : Int),
       p.achievements_earned + 1 < U64_MOD →
       U64_MOD ≤ p.xp + tierBonus tier →
       awardAchievement p achievement_id achievement_name tier now =
         .error .overflow) ∧
    (∀ (p : UserProfile) (now : Int),
       now - p.last_active ≤ 86400 →
       U64_MOD ≤ p.streak + 1 →
       updateStreak p now = .error .overflow) := by
  refine ⟨?_, ?_, ?_, ?_, ?_, ?_⟩
  · intro p quiz_id score total_questions now hst hov
    unfold submitQuiz
    rw [if_pos hst, checkedAddU64_error_of hov]
  · intro p quiz_id score total_questions now hst h1 hov
    unfold submitQuiz
    rw [if_pos hst, checkedAddU64_ok_of h1, checkedAddU64_error_of hov]
  · intro p quiz_id score total_questions now hst h1 h2 hov
    unfold submitQuiz
    rw [if_pos hst, checkedAddU64_ok_of h1, checkedAddU64_ok_of h2]
    dsimp only
    rw [sub_self, if_pos (by norm_num : (0:Int) ≤ 86400),
      checkedAddU64_error_of hov]
    rfl
  · intro p achievement_id achievement_name tier now hov
    unfold awardAchievement
    dsimp only
    rw [checkedAddU64_error_of hov]
  · intro p achievement_id achievement_name tier now h1 hov
    unfold awardAchievement
    dsimp only
    rw [checkedAddU64_ok_of h1, checkedAddU64_error_of hov]
  · intro p now hc hov
    unfold updateStreak
    dsimp only
    rw [if_pos hc, checkedAddU64_error_of hov]
    rfl

/-- Witness for C8: a profile sitting at `xp = u64::MAX` cannot absorb
the 10 XP of a 1/2 quiz; the call aborts with the overflow failure. -/
theorem C8_increments_fallible_witness :
    (1 : Nat) ≤ 2 ∧
    U64_MOD ≤ ({ initProfile 1 "alice" 0 with
                 xp := 18446744073709551615 } : UserProfile).xp +
      xpEarned 1 2 ∧
    submitQuiz { initProfile 1 "alice" 0 with
                 xp := 18446744073709551615 } "q1" 1 2 0 =
      .error .overflow := by
  refine ⟨by decide, by decide, ?_⟩
  exact C8_increments_fallible.1 _ "q1" 1 2 0 (by decide) (by decide)

/-- C9: `initialize_profile` creates the profile with all counters
zeroed, level 1, and `created_at = last_active = now`. -/
theorem C9_init_profile_fields (authority : Nat) (username : String)
    (now : Int) :
    (initProfile authority username now).xp = 0 ∧
    (initProfile authority username now).level = 1 ∧
    (initProfile authority username now).streak = 0 ∧
    (initProfile authority username now).quizzes_completed = 0 ∧
    (initProfile authority username now).achievements_earned = 0 ∧
    (initProfile authority username now).created_at = now ∧
    (initProfile authority username now).last_active = now :=
  ⟨rfl, rfl, rfl, rfl, rfl, rfl, rfl⟩

/-- C10: a successful `update_streak` call changes at most `streak` and
`last_active`: `authority`, `username`, `xp`, `level`,
`quizzes_completed`, `achievements_earned` and `created_at` keep their
pre-call values.  The `UpdateStreak` accounts context contains only the
profile (and the signing authority), so the instruction creates no
quiz-result or achievement record; accordingly its embedding returns
only the profile. -/
theorem C10_update_streak_frame {p post : UserProfile} {now : Int}
    (h : updateStreak p now = .ok post) :
    post.authority = p.authority ∧
    post.username = p.username ∧
    post.xp = p.xp ∧
    post.level = p.level ∧
    post.quizzes_completed = p.quizzes_completed ∧
    post.achievements_earned = p.achievements_earned ∧
    post.created_at = p.created_at := by
  rcases updateStreak_ok_inv h with ⟨-, -, hpost⟩ | ⟨-, hpost⟩ <;>
    subst hpost <;>
    exact ⟨rfl, rfl, rfl, rfl, rfl, rfl, rfl⟩

/-- Witness for C10: an `update_streak` call at `now = 50` on a fresh
profile touches only `streak` and `last_active`. -/
theorem C10_update_streak_frame_witness :
    updateStreak (initProfile 3 "bob" 0) 50 =
      .ok { initProfile 3 "bob" 0 with
            streak := 1, last_active := 50 } ∧
    ({ initProfile 3 "bob" 0 with
       streak := 1, last_active := 50 } : UserProfile).authority =
      (initProfile 3 "bob" 0).authority ∧
    ({ initProfile 3 "bob" 0 with
       streak := 1, last_active := 50 } : UserProfile).username =
      (initProfile 3 "bob" 0).username ∧
    ({ initProfile 3 "bob" 0 with
       streak := 1, last_active := 50 } : UserProfile).xp =
      (initProfile 3 "bob" 0).xp ∧
    ({ initProfile 3 "bob" 0 with
       streak := 1, last_active := 50 } : UserProfile).created_at =
      (initProfile 3 "bob" 0).created_at := by
  have h : updateStreak (initProfile 3 "bob" 0) 50 =
      .ok { initProfile 3 "bob" 0 with
            streak := 1, last_active := 50 } := by rfl
  exact ⟨h, (C10_update_streak_frame h).1, (C10_update_streak_frame h).2.1,
         (C10_update_streak_frame h).2.2.1,
         (C10_update_streak_frame h).2.2.2.2.2.2⟩
